import Mathlib

/-!
Shallow embedding of the terminal-launch subsystem of the
obsidian-cc-launcher plugin (source files src/utils/terminal.ts,
src/settings.ts, src/types.ts).  Strings are modeled as Lean strings
(lists of characters); the JavaScript string and regular-expression
operations that the source uses are modeled by structural recursion on
character lists so that every definition is executable by kernel
reduction.  The spawn call itself is host input/output; only its pure
parts (the resolution of executable and argument vector, and the
classification of a reported spawn error code) are embedded.
-/

/-- The single-quote character (code point 39), kept as a named constant
so that template strings can be assembled without quote-escape noise. -/
def quoteChar : Char := Char.ofNat 39

/-- A one-character string holding the single quote. -/
def squote : String := String.singleton quoteChar

/-- JS String.prototype.includes with a literal search value, over
character lists: does pat occur as a contiguous substring? -/
def containsSubList (pat : List Char) : List Char → Bool
  | [] => pat.isEmpty
  | c :: rest => pat.isPrefixOf (c :: rest) || containsSubList pat rest

/-- JS s.includes(pat) on strings. -/
def includesStr (s pat : String) : Bool :=
  containsSubList pat.data s.data

/-- One global, left-to-right, non-rescanning replacement pass over a
character list, as performed by JS String.prototype.replace with a
global literal-text pattern.  The fuel argument is the length of the
input, which bounds the number of steps because the pattern is
nonempty.  Dollar escape sequences of JS replacement strings are not
modeled; no replacement value appearing in this development contains a
dollar sign. -/
def replaceAllAux (pat rep : List Char) : Nat → List Char → List Char
  | 0, s => s
  | _ + 1, [] => []
  | fuel + 1, c :: rest =>
    if pat.isPrefixOf (c :: rest) then
      rep ++ replaceAllAux pat rep fuel ((c :: rest).drop pat.length)
    else
      c :: replaceAllAux pat rep fuel rest

/-- JS s.replace(/pat/g, rep) with a literal pattern: replace every
non-overlapping occurrence, scanning left to right, never rescanning
replaced text. -/
def jsReplaceAll (s pat rep : String) : String :=
  if pat.data.isEmpty then s
  else String.mk (replaceAllAux pat.data rep.data s.data.length s.data)

/-- JS s.replace(pat, rep) with a string (non-regex) pattern: replace
only the first occurrence. -/
def replaceFirstList (pat rep : List Char) : List Char → List Char
  | [] => if pat.isEmpty then rep else []
  | c :: rest =>
    if pat.isPrefixOf (c :: rest) then rep ++ (c :: rest).drop pat.length
    else c :: replaceFirstList pat rep rest

/-- String version of replaceFirstList. -/
def jsReplaceFirst (s pat rep : String) : String :=
  String.mk (replaceFirstList pat.data rep.data s.data)

/-- The placeholder substitution of launchTerminal (terminal.ts lines
98-100): one global pass replacing each occurrence of the directory
placeholder with the working directory, then one global pass replacing
each occurrence of the command placeholder with the command string. -/
def substitutePlaceholders (template workingDirectory command : String) : String :=
  jsReplaceAll (jsReplaceAll template "{DIR}" workingDirectory) "{CMD}" command

/-- Split a character list at slash separators, as Node path parsing
effectively does for POSIX paths. -/
def splitSlash : List Char → List (List Char)
  | [] => [[]]
  | c :: rest =>
    if c = '/' then [] :: splitSlash rest
    else
      match splitSlash rest with
      | s :: ss => (c :: s) :: ss
      | [] => [[c]]

/-- One step of the segment normalization of Node path.normalize: skip
empty and single-dot segments, pop the stack on a parent segment (or
keep the parent segment when ascending above the root is allowed, that
is, for relative paths), and push every other segment.  The stack is
kept in reversed order. -/
def normStep (allowAboveRoot : Bool) (stack : List String) (seg : String) : List String :=
  if seg = "" || seg = "." then stack
  else if seg = ".." then
    match stack with
    | [] => if allowAboveRoot then [".."] else []
    | top :: rest =>
      if top = ".." then
        if allowAboveRoot then ".." :: top :: rest else top :: rest
      else rest
  else seg :: stack

/-- Does the character list start with a slash? -/
def headIsSlash (l : List Char) : Bool :=
  match l with
  | '/' :: _ => true
  | _ => false

/-- Does the character list end with a slash? -/
def lastIsSlash (l : List Char) : Bool :=
  match l.getLast? with
  | some c => c = '/'
  | none => false

/-- Node path.normalize with POSIX rules: resolve single-dot and
parent-traversal segments, collapse repeated separators, keep a trailing
separator.  Used by validatePath (terminal.ts line 143) and by
path.join inside buildLaunchContext (terminal.ts line 22). -/
def posixNormalize (p : String) : String :=
  if p.data.isEmpty then "."
  else
    let isAbs := headIsSlash p.data
    let trailing := lastIsSlash p.data
    let segs := (splitSlash p.data).map String.mk
    let stack := segs.foldl (normStep !isAbs) []
    let body := String.intercalate "/" stack.reverse
    if body = "" then
      if isAbs then "/" else if trailing then "./" else "."
    else
      let body2 := if trailing then body ++ "/" else body
      if isAbs then "/" ++ body2 else body2

/-- validatePath (terminal.ts lines 142-151): normalize the path with
path.normalize, then reject exactly when the normalized path contains
the two-character text ".." anywhere (JS String.prototype.includes). -/
def validatePath (filePath : String) : Bool :=
  let normalized := posixNormalize filePath
  if includesStr normalized ".." then false else true

/-- The JS whitespace class of the regex escape for whitespace,
restricted to the ASCII range; every character relevant to the source
templates is ASCII. -/
def isJsWs (c : Char) : Bool :=
  c = ' ' || c = '\t' || c = '\n' || c = '\r' || c = Char.ofNat 11 || c = Char.ofNat 12

/-- Match a literal token at the head of the input, returning the rest
of the input on success. -/
def dropLit : List Char → List Char → Option (List Char)
  | [], l => some l
  | _ :: _, [] => none
  | a :: as, c :: l => if c = a then dropLit as l else none

/-- Match one-or-more whitespace characters greedily.  In the source
regex each whitespace run is followed by a non-whitespace literal, so
the greedy maximal run is the only viable one and no backtracking over
its length is needed. -/
def ws1 : List Char → Option (List Char)
  | [] => none
  | c :: rest => if isJsWs c then some (rest.dropWhile isJsWs) else none

/-- Greedy capture for a dot-plus group followed by a closing single
quote: the longest newline-free prefix of the input that is immediately
followed by a single quote.  Returns none when no closing quote occurs
before a newline or the end of the input. -/
def quoteCapture : List Char → Option (List Char)
  | [] => none
  | c :: rest =>
    match (if c = '\n' then none else (quoteCapture rest).map (c :: ·)) with
    | some p => some p
    | none => if c = quoteChar then some [] else none

/-- Anchored attempt of the source regex of terminal.ts line 118 (the
word osascript, one or more whitespace characters, the token -e, one or
more whitespace characters, then a single-quoted nonempty group) at the
head of the input, returning the capture group. -/
def osascriptMatchAt (l : List Char) : Option (List Char) :=
  (dropLit "osascript".data l).bind fun l1 =>
  (ws1 l1).bind fun l2 =>
  (dropLit "-e".data l2).bind fun l3 =>
  (ws1 l3).bind fun l4 =>
  match l4 with
  | c :: l5 =>
    if c = quoteChar then
      (quoteCapture l5).bind fun p => if p.isEmpty then none else some p
    else none
  | [] => none

/-- Leftmost match: try every start position from the left, as JS
String.prototype.match does for an unanchored pattern. -/
def osascriptSearch : List Char → Option (List Char)
  | [] => none
  | c :: rest =>
    match osascriptMatchAt (c :: rest) with
    | some p => some p
    | none => osascriptSearch rest

/-- terminalCommand.match of terminal.ts line 118, returning the first
capture group when the match succeeds. -/
def osascriptMatch (s : String) : Option String :=
  (osascriptSearch s.data).map String.mk

/-- JS String.prototype.trim, over the ASCII whitespace model. -/
def trimList (l : List Char) : List Char :=
  ((l.dropWhile isJsWs).reverse.dropWhile isJsWs).reverse

/-- String version of trimList. -/
def jsTrim (s : String) : String := String.mk (trimList s.data)

/-- Error message constant of src/types.ts. -/
def ERROR_MESSAGES_COMMAND_NOT_FOUND : String :=
  "Claude Code not found. Ensure it is installed and in your PATH."

/-- Error message constant of src/types.ts. -/
def ERROR_MESSAGES_PERMISSION_DENIED : String :=
  "Permission denied. Check your terminal settings and system permissions."

/-- Error message constant of src/types.ts. -/
def ERROR_MESSAGES_INVALID_PATH : String :=
  "Invalid directory path. Cannot launch Claude Code."

/-- Error message constant of src/types.ts; the underlying spawn error
message is appended to it. -/
def ERROR_MESSAGES_SPAWN_FAILED : String := "Failed to launch terminal: "

/-- Error message constant of src/types.ts. -/
def ERROR_MESSAGES_NOT_DESKTOP : String := "This feature is only available on desktop."

/-- LauncherSettings of src/types.ts. -/
structure LauncherSettings where
  terminalCommand : String
  claudeCommand : String
  additionalArgs : String
deriving DecidableEq

/-- LaunchContext of src/types.ts. -/
structure LaunchContext where
  workingDirectory : String
  command : String
  terminalCommand : String
deriving DecidableEq

/-- LaunchResult of src/types.ts. -/
structure LaunchResult where
  success : Bool
  error : Option String
deriving DecidableEq

/-- Decidable equality for Except values, so that concrete resolution
results can be evaluated by decide. -/
instance {ε α : Type} [DecidableEq ε] [DecidableEq α] : DecidableEq (Except ε α) :=
  fun a b =>
    match a, b with
    | Except.ok x, Except.ok y =>
      if h : x = y then Decidable.isTrue (by rw [h]) else Decidable.isFalse (by simp [h])
    | Except.error x, Except.error y =>
      if h : x = y then Decidable.isTrue (by rw [h]) else Decidable.isFalse (by simp [h])
    | Except.ok _, Except.error _ => Decidable.isFalse (by simp)
    | Except.error _, Except.ok _ => Decidable.isFalse (by simp)

/-- getDefaultSettings (settings.ts lines 5-31).  The argument is the
process.platform string; the default switch arm covers every platform
string other than the three recognized ones. -/
def getDefaultSettings (platform : String) : LauncherSettings :=
  let terminalCommand :=
    if platform = "darwin" then
      "osascript -e " ++ squote
        ++ "tell application \"Terminal\" to do script \"cd {DIR} && {CMD}\"" ++ squote
    else if platform = "win32" then
      "start cmd /K \"cd /D {DIR} && {CMD}\""
    else if platform = "linux" then
      "gnome-terminal --working-directory=\"{DIR}\" -- bash -c \"{CMD}; exec bash\""
    else
      "gnome-terminal --working-directory=\"{DIR}\" -- bash -c \"{CMD}; exec bash\""
  { terminalCommand := terminalCommand, claudeCommand := "claude-code", additionalArgs := "" }

/-- The template validation performed by the settings-tab text field
onChange handler (settings.ts lines 70-77): a notice is raised for a
truthy (nonempty) value that misses the directory placeholder or the
command placeholder; a falsy (empty) value raises nothing.  Returns the
notice text when one is raised. -/
def validateTemplateValue (value : String) : Option String :=
  if value = "" then none
  else if !(includesStr value "{DIR}") || !(includesStr value "{CMD}") then
    some "Terminal command must contain {DIR} and {CMD} placeholders"
  else none

/-- The vault adapter as seen by buildLaunchContext: whether it is a
FileSystemAdapter, and its base path. -/
structure AdapterInfo where
  isFileSystemAdapter : Bool
  basePath : String

/-- The fields of an Obsidian TFile that buildLaunchContext reads: the
path of the parent folder, when a parent exists. -/
structure FileInfo where
  parentPath : Option String

/-- Node path.join for two segments, POSIX rules: join with a
separator, dropping empty parts, then normalize. -/
def pathJoin (a b : String) : String :=
  let joined := if a = "" then b else if b = "" then a else a ++ "/" ++ b
  if joined = "" then "." else posixNormalize joined

/-- buildLaunchContext (terminal.ts lines 6-34).  The two throw
statements of the source are modeled as Except.error carrying the
thrown message; Except.ok carries the returned context. -/
def buildLaunchContext (app : AdapterInfo) (file : FileInfo)
    (settings : LauncherSettings) : Except String LaunchContext :=
  if !app.isFileSystemAdapter then
    Except.error ERROR_MESSAGES_NOT_DESKTOP
  else
    match file.parentPath with
    | none => Except.error ERROR_MESSAGES_INVALID_PATH
    | some parentPath =>
      let workingDirectory := pathJoin app.basePath parentPath
      let command :=
        if jsTrim settings.additionalArgs ≠ "" then
          settings.claudeCommand ++ " " ++ settings.additionalArgs
        else settings.claudeCommand
      Except.ok
        { workingDirectory := workingDirectory
          command := command
          terminalCommand := settings.terminalCommand }

/-- The resolution part of launchTerminal (terminal.ts lines 88-131):
path validation, placeholder substitution, and the per-platform choice
of executable, argument vector and shell flag.  Except.error carries
the LaunchResult error message returned at line 93; the spawn call that
consumes the resolved triple is modeled separately. -/
def launchTerminalResolve (platform : String) (context : LaunchContext) :
    Except String (String × List String × Bool) :=
  if !(validatePath context.workingDirectory) then
    Except.error ERROR_MESSAGES_INVALID_PATH
  else
    let terminalCommand :=
      substitutePlaceholders context.terminalCommand context.workingDirectory context.command
    if platform = "win32" then
      Except.ok ("cmd", ["/c", terminalCommand], false)
    else if platform = "darwin" && includesStr terminalCommand "osascript" then
      match osascriptMatch terminalCommand with
      | some script => Except.ok ("osascript", ["-e", script], false)
      | none => Except.ok ("osascript", ["-e", jsReplaceFirst terminalCommand "osascript -e " ""], false)
    else
      Except.ok ("/bin/sh", ["-c", terminalCommand], false)

/-- The spawn error listener of spawnTerminal (terminal.ts lines
54-70): classify the reported OS error code, defaulting to the spawn
failure message with the underlying message appended, and resolve the
promise with success false. -/
def spawnErrorResult (code : Option String) (message : String) : LaunchResult :=
  let errorMessage := ERROR_MESSAGES_SPAWN_FAILED ++ message
  let errorMessage :=
    if code = some "ENOENT" then ERROR_MESSAGES_COMMAND_NOT_FOUND
    else if code = some "EACCES" then ERROR_MESSAGES_PERMISSION_DENIED
    else errorMessage
  { success := false, error := some errorMessage }

/-- Modelled from the spec: the existence-checking resolver that the
specification describes for CommandResolver step 1, with a
directory-existence oracle standing for the host file system; it fails
with the invalid-directory message when the normalized working
directory does not exist.  The source resolver launchTerminalResolve
consults no file system; this definition exists to compare the two. -/
def specResolveWithExistence (dirExists : String → Bool) (platform : String)
    (context : LaunchContext) : Except String (String × List String × Bool) :=
  if !(validatePath context.workingDirectory) then
    Except.error ERROR_MESSAGES_INVALID_PATH
  else if !(dirExists (posixNormalize context.workingDirectory)) then
    Except.error ERROR_MESSAGES_INVALID_PATH
  else
    launchTerminalResolve platform context

/-! Helper lemmas shared by the claim theorems. -/

theorem isPrefixOf_append_self (l r : List Char) : l.isPrefixOf (l ++ r) = true := by
  induction l with
  | nil => simp [List.isPrefixOf]
  | cons c cs ih => simp [List.isPrefixOf, ih]

theorem containsSubList_append_self (pat rest : List Char) :
    containsSubList pat (pat ++ rest) = true := by
  cases pat with
  | nil =>
    cases rest with
    | nil => rfl
    | cons c cs => simp [containsSubList, List.isPrefixOf]
  | cons c cs => simp [containsSubList, isPrefixOf_append_self]

theorem dropLit_append (lit rest : List Char) : dropLit lit (lit ++ rest) = some rest := by
  induction lit with
  | nil => rfl
  | cons a as ih => simp [dropLit, ih]

theorem quoteCapture_clean (p : List Char) (hnl : ∀ c ∈ p, ¬ c = '\n') :
    quoteCapture (p ++ [quoteChar]) = some p := by
  induction p with
  | nil => rfl
  | cons c cs ih =>
    have hc : ¬ c = '\n' := hnl c (by simp)
    have ih2 := ih (fun x hx => hnl x (by simp [hx]))
    simp [quoteCapture, ih2, hc]

theorem validatePath_false_of_dotdot (filePath : String)
    (h : includesStr (posixNormalize filePath) ".." = true) :
    validatePath filePath = false := by
  unfold validatePath
  simp [h]

theorem validatePath_true_of_not_dotdot (filePath : String)
    (h : includesStr (posixNormalize filePath) ".." = false) :
    validatePath filePath = true := by
  unfold validatePath
  simp [h]

theorem resolve_error_of_dotdot (platform : String) (context : LaunchContext)
    (h : includesStr (posixNormalize context.workingDirectory) ".." = true) :
    launchTerminalResolve platform context = Except.error ERROR_MESSAGES_INVALID_PATH := by
  unfold launchTerminalResolve
  simp [validatePath_false_of_dotdot context.workingDirectory h]

theorem resolve_ok_of_valid (platform : String) (context : LaunchContext)
    (h : validatePath context.workingDirectory = true) :
    ∃ r, launchTerminalResolve platform context = Except.ok r := by
  unfold launchTerminalResolve
  simp only [h, Bool.not_true, Bool.false_eq_true, if_false]
  split
  · exact ⟨_, rfl⟩
  · split
    · split
      · exact ⟨_, rfl⟩
      · exact ⟨_, rfl⟩
    · exact ⟨_, rfl⟩

/-! Claim theorems. -/

/-- C1 counterexample: the claim states that resolution with working
directory /tmp/../etc fails with the invalid-directory error regardless
of template, but on the code the path normalizes to /etc, passes
validatePath, and resolution succeeds. -/
theorem c1_counterexample :
    validatePath "/tmp/../etc" = true ∧
    launchTerminalResolve "linux"
        { workingDirectory := "/tmp/../etc", command := "claude-code",
          terminalCommand := "xterm -e {CMD}" }
      = Except.ok ("/bin/sh", ["-c", "xterm -e claude-code"], false) := by
  exact ⟨by decide, by decide⟩

/-- C1 (amended): resolution fails with the invalid-directory error,
regardless of template and platform, exactly for those working
directories whose normalized form still contains a parent-traversal
marker (the text ".."); a parent-traversal segment that normalization
resolves away, as in /tmp/../etc, is accepted. -/
theorem c1_traversal_rejection (platform : String) (context : LaunchContext)
    (h : includesStr (posixNormalize context.workingDirectory) ".." = true) :
    launchTerminalResolve platform context = Except.error ERROR_MESSAGES_INVALID_PATH :=
  resolve_error_of_dotdot platform context h

/-- Witness for c1_traversal_rejection at the relative directory
../etc, whose normalized form keeps the parent segment. -/
theorem c1_traversal_rejection_witness :
    includesStr (posixNormalize "../etc") ".." = true ∧
    launchTerminalResolve "linux"
        { workingDirectory := "../etc", command := "claude-code",
          terminalCommand := "{DIR} {CMD}" }
      = Except.error ERROR_MESSAGES_INVALID_PATH :=
  ⟨by decide, c1_traversal_rejection "linux" _ (by decide)⟩

/-- C2 counterexample: the claim states that a working directory that
does not exist on the host file system makes resolution fail with the
invalid-directory error.  The code consults no file system: under the
existence oracle in which no directory exists at all, the
specification-mandated resolver fails on /tmp while the source resolver
succeeds on the very same context. -/
theorem c2_counterexample :
    specResolveWithExistence (fun _ => false) "linux"
        { workingDirectory := "/tmp", command := "claude-code",
          terminalCommand := "{DIR} {CMD}" }
      = Except.error ERROR_MESSAGES_INVALID_PATH ∧
    launchTerminalResolve "linux"
        { workingDirectory := "/tmp", command := "claude-code",
          terminalCommand := "{DIR} {CMD}" }
      = Except.ok ("/bin/sh", ["-c", "/tmp claude-code"], false) := by
  exact ⟨by decide, by decide⟩

/-- C2 (amended): resolution performs no existence check at all; it
fails with the invalid-directory error precisely when the normalized
working directory contains the parent-traversal marker, independently
of any host file-system state. -/
theorem c2_no_existence_check (platform : String) (context : LaunchContext) :
    launchTerminalResolve platform context = Except.error ERROR_MESSAGES_INVALID_PATH
      ↔ includesStr (posixNormalize context.workingDirectory) ".." = true := by
  constructor
  · intro he
    by_contra hn
    have hfalse : includesStr (posixNormalize context.workingDirectory) ".." = false :=
      Bool.not_eq_true _ ▸ Bool.of_not_eq_true hn
    have hv := validatePath_true_of_not_dotdot context.workingDirectory hfalse
    obtain ⟨r, hr⟩ := resolve_ok_of_valid platform context hv
    rw [hr] at he
    exact Except.noConfusion he
  · exact resolve_error_of_dotdot platform context

/-- C3 counterexample: substitution is not globally non-recursive: the
directory placeholder is substituted first, and a command placeholder
occurring inside the substituted working directory is then replaced by
the second pass, so the resolved command slot holds /tmp/aXb instead of
the literal /tmp/a{CMD}b. -/
theorem c3_counterexample :
    launchTerminalResolve "linux"
        { workingDirectory := "/tmp/a{CMD}b", command := "X",
          terminalCommand := "{DIR}" }
      = Except.ok ("/bin/sh", ["-c", "/tmp/aXb"], false) ∧
    ("/tmp/aXb" : String) ≠ "/tmp/a{CMD}b" := by
  exact ⟨by decide, by decide⟩

/-- C3 (amended): the substitution is two sequential single passes, the
directory pass first and the command pass second; text inserted by the
command pass is never re-substituted, so the command value reaches the
command slot verbatim for every working directory and command (in
particular template {CMD} with command echo {DIR} resolves to the
literal text echo {DIR} in the command slot); a command placeholder
occurring inside the substituted working directory, however, is
replaced by the second pass. -/
theorem c3_single_pass :
    (∀ workingDirectory command : String,
        substitutePlaceholders "{CMD}" workingDirectory command = command) ∧
    launchTerminalResolve "linux"
        { workingDirectory := "/tmp", command := "echo {DIR}",
          terminalCommand := "{CMD}" }
      = Except.ok ("/bin/sh", ["-c", "echo {DIR}"], false) := by
  constructor
  · intro workingDirectory command
    show String.mk (command.data ++ []) = command
    rw [List.append_nil]
  · decide

/-- C4: the spawn error listener classifies by OS error code: ENOENT
yields the command-not-found message, EACCES yields the
permission-denied message, every other code yields the spawn-failed
message with the underlying error message appended, and the result
always carries success false. -/
theorem c4_spawn_error_classification :
    (∀ message : String, spawnErrorResult (some "ENOENT") message
        = { success := false, error := some ERROR_MESSAGES_COMMAND_NOT_FOUND }) ∧
    (∀ message : String, spawnErrorResult (some "EACCES") message
        = { success := false, error := some ERROR_MESSAGES_PERMISSION_DENIED }) ∧
    (∀ (code : Option String) (message : String),
        code ≠ some "ENOENT" → code ≠ some "EACCES" →
        spawnErrorResult code message
          = { success := false, error := some (ERROR_MESSAGES_SPAWN_FAILED ++ message) }) ∧
    (∀ (code : Option String) (message : String),
        (spawnErrorResult code message).success = false) := by
  refine ⟨fun message => rfl, fun message => rfl, ?_, ?_⟩
  · intro code message h1 h2
    simp [spawnErrorResult, h1, h2]
  · intro code message
    simp [spawnErrorResult]

/-- Witness for c4_spawn_error_classification: a code other than the
two recognized ones keeps the underlying message. -/
theorem c4_spawn_error_classification_witness :
    (some "EIO" : Option String) ≠ some "ENOENT" ∧
    (some "EIO" : Option String) ≠ some "EACCES" ∧
    spawnErrorResult (some "EIO") "boom"
      = { success := false, error := some (ERROR_MESSAGES_SPAWN_FAILED ++ "boom") } :=
  ⟨by decide, by decide,
    c4_spawn_error_classification.2.2.1 (some "EIO") "boom" (by decide) (by decide)⟩

/-- C5 counterexample: context building does throw: with a vault
adapter that is not a FileSystemAdapter, buildLaunchContext throws the
desktop-only error (modeled as Except.error) instead of returning a
result value; likewise for a file without a parent. -/
theorem c5_counterexample :
    buildLaunchContext { isFileSystemAdapter := false, basePath := "/vault" }
        { parentPath := some "notes" }
        { terminalCommand := "{DIR} {CMD}", claudeCommand := "claude-code",
          additionalArgs := "" }
      = Except.error ERROR_MESSAGES_NOT_DESKTOP ∧
    buildLaunchContext { isFileSystemAdapter := true, basePath := "/vault" }
        { parentPath := none }
        { terminalCommand := "{DIR} {CMD}", claudeCommand := "claude-code",
          additionalArgs := "" }
      = Except.error ERROR_MESSAGES_INVALID_PATH := by
  exact ⟨rfl, rfl⟩

/-- C5 (amended): launchTerminal and spawnTerminal return every failure
as a LaunchResult value, but buildLaunchContext throws exactly when the
vault adapter is not a FileSystemAdapter or the file has no parent
folder (conditions its caller re-checks before invoking it); whenever
the adapter is a FileSystemAdapter and a parent exists, context
building returns a value. -/
theorem c5_throw_boundary (app : AdapterInfo) (file : FileInfo)
    (settings : LauncherSettings) :
    (∃ context, buildLaunchContext app file settings = Except.ok context)
      ↔ (app.isFileSystemAdapter = true ∧ file.parentPath.isSome = true) := by
  unfold buildLaunchContext
  cases happ : app.isFileSystemAdapter with
  | false => simp
  | true =>
    cases hfile : file.parentPath with
    | none => simp
    | some parentPath => simp

/-- C6 counterexample: the settings-tab validation raises nothing for
the empty template, because the empty string is falsy in the guard;
there is no empty-template error anywhere in the code. -/
theorem c6_counterexample : validateTemplateValue "" = none := by
  exact rfl

/-- C6 (amended): the onChange validation raises the missing-placeholder
notice for every nonempty template that lacks the {DIR} placeholder or
the {CMD} placeholder, whitespace-only templates included, and raises
nothing for the empty template or for a template containing both
placeholders; no empty-template error exists. -/
theorem c6_placeholder_validation :
    (∀ value : String, validateTemplateValue value = none
        ↔ (value = "" ∨ (includesStr value "{DIR}" = true ∧ includesStr value "{CMD}" = true))) ∧
    validateTemplateValue "no placeholders here"
      = some "Terminal command must contain {DIR} and {CMD} placeholders" ∧
    validateTemplateValue "   "
      = some "Terminal command must contain {DIR} and {CMD} placeholders" := by
  refine ⟨?_, by decide, by decide⟩
  intro value
  by_cases hv : value = ""
  · simp [validateTemplateValue, hv]
  · cases hd : includesStr value "{DIR}" <;>
      cases hc : includesStr value "{CMD}" <;>
      simp [validateTemplateValue, hv, hd, hc]

/-- C8: the default template for an unrecognized platform string is the
byte-for-byte same string as the Linux default; unrecognized platforms
are handled by the fallback switch arm, never as an error. -/
theorem c8_unknown_platform_default :
    (getDefaultSettings "unknown").terminalCommand
      = (getDefaultSettings "linux").terminalCommand ∧
    (∀ platform : String, platform ≠ "darwin" → platform ≠ "win32" →
        (getDefaultSettings platform).terminalCommand
          = (getDefaultSettings "linux").terminalCommand) := by
  constructor
  · rfl
  · intro platform h1 h2
    unfold getDefaultSettings
    simp only [h1, h2, if_false]
    by_cases h3 : platform = "linux" <;> simp [h3]

/-- Witness for c8_unknown_platform_default at the platform string
unknown. -/
theorem c8_unknown_platform_default_witness :
    ("unknown" : String) ≠ "darwin" ∧ ("unknown" : String) ≠ "win32" ∧
    (getDefaultSettings "unknown").terminalCommand
      = (getDefaultSettings "linux").terminalCommand :=
  ⟨by decide, by decide,
    c8_unknown_platform_default.2 "unknown" (by decide) (by decide)⟩

/-- C9: on the darwin platform, when the substituted template does not
contain the text osascript, resolution takes the final branch shared
with Linux and unknown platforms: /bin/sh with the whole substituted
string as the single argument of -c. -/
theorem c9_darwin_fallthrough (context : LaunchContext)
    (hvalid : validatePath context.workingDirectory = true)
    (hno : includesStr
        (substitutePlaceholders context.terminalCommand context.workingDirectory context.command)
        "osascript" = false) :
    launchTerminalResolve "darwin" context
      = Except.ok ("/bin/sh",
          ["-c", substitutePlaceholders context.terminalCommand context.workingDirectory context.command],
          false) := by
  unfold launchTerminalResolve
  simp [hvalid, hno]

/-- Witness for c9_darwin_fallthrough: an xterm-style template on
darwin resolves through the portable-shell branch. -/
theorem c9_darwin_fallthrough_witness :
    validatePath "/tmp" = true ∧
    includesStr (substitutePlaceholders "xterm -e \"cd {DIR} && {CMD}\"" "/tmp" "claude-code")
        "osascript" = false ∧
    launchTerminalResolve "darwin"
        { workingDirectory := "/tmp", command := "claude-code",
          terminalCommand := "xterm -e \"cd {DIR} && {CMD}\"" }
      = Except.ok ("/bin/sh", ["-c", "xterm -e \"cd /tmp && claude-code\""], false) :=
  ⟨by decide, by decide, c9_darwin_fallthrough _ (by decide) (by decide)⟩

/-- C10: path validation rejects every path whose normalized form
contains the two-character text ".." anywhere, parent-traversal segment
or not; for such working directories resolution fails with the
invalid-directory error, as on /tmp/foo..bar. -/
theorem c10_substring_rejection :
    (∀ filePath : String,
        includesStr (posixNormalize filePath) ".." = true → validatePath filePath = false) ∧
    validatePath "/tmp/foo..bar" = false ∧
    launchTerminalResolve "linux"
        { workingDirectory := "/tmp/foo..bar", command := "claude-code",
          terminalCommand := "{DIR} {CMD}" }
      = Except.error ERROR_MESSAGES_INVALID_PATH := by
  exact ⟨validatePath_false_of_dotdot, by decide, by decide⟩

/-- Witness for c10_substring_rejection at a path with a non-segment
double dot. -/
theorem c10_substring_rejection_witness :
    includesStr (posixNormalize "/x/a..b") ".." = true ∧ validatePath "/x/a..b" = false :=
  ⟨by decide, c10_substring_rejection.1 "/x/a..b" (by decide)⟩

theorem osascriptMatchAt_shape (p : List Char) (hne : p ≠ [])
    (hnl : ∀ c ∈ p, ¬ c = '\n') :
    osascriptMatchAt
        ("osascript".data ++ (' ' :: '-' :: 'e' :: ' ' :: quoteChar :: (p ++ [quoteChar])))
      = some p := by
  cases p with
  | nil => exact absurd rfl hne
  | cons c cs =>
    have hq : quoteCapture ((c :: cs) ++ [quoteChar]) = some (c :: cs) :=
      quoteCapture_clean (c :: cs) hnl
    unfold osascriptMatchAt
    rw [dropLit_append]
    show (quoteCapture ((c :: cs) ++ [quoteChar])).bind
        (fun q => if q.isEmpty then none else some q) = some (c :: cs)
    rw [hq]
    rfl

theorem osascriptSearch_head (c : Char) (rest p : List Char)
    (h : osascriptMatchAt (c :: rest) = some p) :
    osascriptSearch (c :: rest) = some p := by
  unfold osascriptSearch
  rw [h]

theorem osascriptSearch_shape (p : List Char) (hne : p ≠ [])
    (hnl : ∀ c ∈ p, ¬ c = '\n') :
    osascriptSearch ("osascript -e ".data ++ quoteChar :: (p ++ [quoteChar])) = some p := by
  have e1 : ("osascript -e ".data : List Char) = "osascript".data ++ [' ', '-', 'e', ' '] := by
    decide
  rw [e1, List.append_assoc]
  have hm := osascriptMatchAt_shape p hne hnl
  have e2 : "osascript".data ++ ([' ', '-', 'e', ' '] ++ quoteChar :: (p ++ [quoteChar]))
      = 'o' :: ("sascript".data ++ (' ' :: '-' :: 'e' :: ' ' :: quoteChar :: (p ++ [quoteChar]))) := rfl
  have hm2 : osascriptMatchAt
      ('o' :: ("sascript".data ++ (' ' :: '-' :: 'e' :: ' ' :: quoteChar :: (p ++ [quoteChar]))))
      = some p := hm
  rw [e2]
  exact osascriptSearch_head _ _ _ hm2

/-- C7: on the darwin platform, for every context whose substituted
template has the recognized scripting-host shape (the word osascript,
the -e switch, then a single-quoted nonempty newline-free payload at
the end of the string), resolution extracts the literal payload between
the quote delimiters and passes it untokenized as the single script
argument: the result is executable osascript with argument vector -e
followed by the payload. -/
theorem c7_osascript_extraction (context : LaunchContext) (payload : String)
    (hvalid : validatePath context.workingDirectory = true)
    (hshape : substitutePlaceholders context.terminalCommand context.workingDirectory context.command
        = "osascript -e " ++ squote ++ payload ++ squote)
    (hne : payload ≠ "")
    (hnl : ∀ c ∈ payload.data, ¬ c = '\n') :
    launchTerminalResolve "darwin" context
      = Except.ok ("osascript", ["-e", payload], false) := by
  have hsq : squote.data = [quoteChar] := rfl
  have hdata : (substitutePlaceholders context.terminalCommand context.workingDirectory context.command).data
      = "osascript -e ".data ++ quoteChar :: (payload.data ++ [quoteChar]) := by
    rw [hshape]
    simp [String.data_append, hsq]
  have hnedata : payload.data ≠ [] := by
    intro h
    apply hne
    cases payload with
    | mk l =>
      have h2 : l = [] := h
      rw [h2]
  have hsearch := osascriptSearch_shape payload.data hnedata hnl
  have hmatch : osascriptMatch
      (substitutePlaceholders context.terminalCommand context.workingDirectory context.command)
      = some payload := by
    unfold osascriptMatch
    rw [hdata, hsearch]
    rfl
  have hinc : includesStr
      (substitutePlaceholders context.terminalCommand context.workingDirectory context.command)
      "osascript" = true := by
    unfold includesStr
    rw [hdata]
    have e1 : ("osascript -e ".data : List Char) = "osascript".data ++ [' ', '-', 'e', ' '] := by
      decide
    rw [e1, List.append_assoc]
    exact containsSubList_append_self _ _
  unfold launchTerminalResolve
  simp [hvalid, hinc, hmatch]

/-- Witness for c7_osascript_extraction: the default darwin template
substituted with a concrete vault directory and command. -/
theorem c7_osascript_extraction_witness :
    validatePath "/vault/notes" = true ∧
    substitutePlaceholders (getDefaultSettings "darwin").terminalCommand "/vault/notes" "claude-code"
      = "osascript -e " ++ squote
          ++ "tell application \"Terminal\" to do script \"cd /vault/notes && claude-code\"" ++ squote ∧
    launchTerminalResolve "darwin"
        { workingDirectory := "/vault/notes", command := "claude-code",
          terminalCommand := (getDefaultSettings "darwin").terminalCommand }
      = Except.ok ("osascript",
          ["-e", "tell application \"Terminal\" to do script \"cd /vault/notes && claude-code\""],
          false) :=
  ⟨by decide, by decide,
    c7_osascript_extraction _ _ (by decide) (by decide) (by decide) (by decide)⟩
